import Mathlib

/-!
Verification of the two adapters in this repository against their
specification: the HTTP request relay of src/backend.py (the Flask view
function agent, which forwards a chat message to a remote compute function
and relays its reply) and the event logger of src/function_app.py (the
Azure Functions handler main, which writes three log lines per delivered
event).

JSON documents are embedded as an inductive value type; the Python library
functions json.dumps and json.loads are modelled as executable Lean
functions over that type (integers only for numbers: no claim involves a
non-integer number). The external compute-invocation service is modelled
as an oracle supplied per theorem, so that the theorems quantify over
every possible behaviour of that service.
-/

/-- A JSON value as produced by the Python function json.loads: an object
maps to a dict (association list with distinct keys, in insertion order),
an array to a list, and scalars to the evident constructors. Numbers are
modelled as integers. -/
inductive Json where
  | null
  | bool (b : Bool)
  | num (n : Int)
  | str (s : String)
  | arr (items : List Json)
  | obj (fields : List (String × Json))

namespace json

/-- JSON whitespace: space, tab, line feed, carriage return. -/
def isJsonWs (c : Char) : Bool :=
  c = ' ' || c = '\t' || c = '\n' || c = '\r'

def skipWs : List Char → List Char
  | c :: rest => if isJsonWs c then skipWs rest else c :: rest
  | [] => []

def hexVal (c : Char) : Option Nat :=
  if '0' ≤ c && c ≤ '9' then some (c.toNat - 48)
  else if 'a' ≤ c && c ≤ 'f' then some (c.toNat - 87)
  else if 'A' ≤ c && c ≤ 'F' then some (c.toNat - 55)
  else none

def hex4Val (a b c d : Char) : Option Nat :=
  match hexVal a, hexVal b, hexVal c, hexVal d with
  | some x, some y, some z, some w => some (x * 4096 + y * 256 + z * 16 + w)
  | _, _, _, _ => none

/-- Body of a JSON string literal, after the opening quote: returns the
decoded characters and the input remaining after the closing quote. Raw
control characters are rejected (strict mode), escape sequences are
decoded, and a high surrogate escape must be followed by a low surrogate
escape (a lone surrogate, which CPython would keep, has no Lean Char
representation and is rejected; no claim involves one). -/
def parseStringBody : List Char → Option (List Char × List Char)
  | [] => none
  | '"' :: rest => some ([], rest)
  | '\\' :: 'u' :: a :: b :: c :: d :: rest =>
    match hex4Val a b c d with
    | none => none
    | some n =>
      if 0xd800 ≤ n && n ≤ 0xdbff then
        match rest with
        | '\\' :: 'u' :: e :: f :: g :: h :: rest2 =>
          match hex4Val e f g h with
          | none => none
          | some m =>
            if 0xdc00 ≤ m && m ≤ 0xdfff then
              match parseStringBody rest2 with
              | some (cs, r) =>
                some (Char.ofNat (0x10000 + (n - 0xd800) * 0x400 + (m - 0xdc00)) :: cs, r)
              | none => none
            else none
        | _ => none
      else if 0xdc00 ≤ n && n ≤ 0xdfff then none
      else
        match parseStringBody rest with
        | some (cs, r) => some (Char.ofNat n :: cs, r)
        | none => none
  | '\\' :: e :: rest =>
    match (if e = '"' then some '"'
           else if e = '\\' then some '\\'
           else if e = '/' then some '/'
           else if e = 'b' then some (Char.ofNat 8)
           else if e = 'f' then some (Char.ofNat 12)
           else if e = 'n' then some '\n'
           else if e = 'r' then some '\r'
           else if e = 't' then some '\t'
           else none) with
    | none => none
    | some c =>
      match parseStringBody rest with
      | some (cs, r) => some (c :: cs, r)
      | none => none
  | c :: rest =>
    if c.toNat < 0x20 then none
    else
      match parseStringBody rest with
      | some (cs, r) => some (c :: cs, r)
      | none => none

def digitsVal (acc : Nat) : List Char → Nat
  | [] => acc
  | c :: rest => digitsVal (acc * 10 + (c.toNat - 48)) rest

def spanDigits : List Char → List Char × List Char
  | c :: rest =>
    if c.isDigit then
      let (ds, r) := spanDigits rest
      (c :: ds, r)
    else ([], c :: rest)
  | [] => ([], [])

/-- A JSON natural number literal: either a single 0 or a nonzero leading
digit followed by any digits (leading zeros are not accepted). -/
def parseNat : List Char → Option (Nat × List Char)
  | '0' :: rest => some (0, rest)
  | c :: rest =>
    if c.isDigit then
      let (ds, r) := spanDigits rest
      some (digitsVal (c.toNat - 48) ds, r)
    else none
  | [] => none

/-- Python dict insertion: a repeated key replaces the stored value in
place, keeping the position of the first occurrence. -/
def dictInsert : List (String × Json) → String → Json → List (String × Json)
  | [], k, v => [(k, v)]
  | (k0, v0) :: rest, k, v =>
    if k0 = k then (k0, v) :: rest else (k0, v0) :: dictInsert rest k v

mutual
/-- One JSON value, with leading whitespace skipped. Models the decoding
done by the Python function json.loads, except that number literals with
a fraction or an exponent, and the NaN and Infinity words, are not
modelled (no claim involves non-integer numbers). -/
def parseValue : Nat → List Char → Option (Json × List Char)
  | 0, _ => none
  | fuel + 1, cs =>
    match skipWs cs with
    | 'n' :: 'u' :: 'l' :: 'l' :: rest => some (.null, rest)
    | 't' :: 'r' :: 'u' :: 'e' :: rest => some (.bool true, rest)
    | 'f' :: 'a' :: 'l' :: 's' :: 'e' :: rest => some (.bool false, rest)
    | '"' :: rest =>
      match parseStringBody rest with
      | some (cs2, r) => some (.str (String.mk cs2), r)
      | none => none
    | '[' :: rest => parseItems fuel rest
    | '\x7b' :: rest =>
      match parseFields fuel rest with
      | some (pairs, r) =>
        some (.obj (pairs.foldl (fun d kv => dictInsert d kv.1 kv.2) []), r)
      | none => none
    | '-' :: rest =>
      match parseNat rest with
      | some (n, r) => some (.num (-(n : Int)), r)
      | none => none
    | cs2 =>
      match parseNat cs2 with
      | some (n, r) => some (.num (n : Int), r)
      | none => none

/-- Elements of an array, after the opening bracket. -/
def parseItems : Nat → List Char → Option (Json × List Char)
  | 0, _ => none
  | fuel + 1, cs =>
    match skipWs cs with
    | ']' :: rest => some (.arr [], rest)
    | cs2 =>
      match parseValue fuel cs2 with
      | none => none
      | some (v, r) =>
        match parseItemsRest fuel r with
        | some (vs, r2) => some (.arr (v :: vs), r2)
        | none => none

/-- Remaining elements of a nonempty array: a comma before each further
element, then the closing bracket. -/
def parseItemsRest : Nat → List Char → Option (List Json × List Char)
  | 0, _ => none
  | fuel + 1, cs =>
    match skipWs cs with
    | ']' :: rest => some ([], rest)
    | ',' :: r =>
      match parseValue fuel r with
      | none => none
      | some (v, r2) =>
        match parseItemsRest fuel r2 with
        | some (vs, r3) => some (v :: vs, r3)
        | none => none
    | _ => none

/-- Members of an object, after the opening brace, as the list of
key/value pairs in source order. -/
def parseFields : Nat → List Char → Option (List (String × Json) × List Char)
  | 0, _ => none
  | fuel + 1, cs =>
    match skipWs cs with
    | '\x7d' :: rest => some ([], rest)
    | '"' :: r =>
      match parseStringBody r with
      | none => none
      | some (kcs, r2) =>
        match skipWs r2 with
        | ':' :: r3 =>
          match parseValue fuel r3 with
          | none => none
          | some (v, r4) =>
            match parseFieldsRest fuel r4 with
            | some (pairs, r5) => some ((String.mk kcs, v) :: pairs, r5)
            | none => none
        | _ => none
    | _ => none

/-- Remaining members of a nonempty object. -/
def parseFieldsRest : Nat → List Char → Option (List (String × Json) × List Char)
  | 0, _ => none
  | fuel + 1, cs =>
    match skipWs cs with
    | '\x7d' :: rest => some ([], rest)
    | ',' :: r =>
      match skipWs r with
      | '"' :: r2 =>
        match parseStringBody r2 with
        | none => none
        | some (kcs, r3) =>
          match skipWs r3 with
          | ':' :: r4 =>
            match parseValue fuel r4 with
            | none => none
            | some (v, r5) =>
              match parseFieldsRest fuel r5 with
              | some (pairs, r6) => some ((String.mk kcs, v) :: pairs, r6)
              | none => none
          | _ => none
      | _ => none
    | _ => none
end

/-- Model of the Python function json.loads: decode exactly one JSON
document, with nothing but whitespace after it, or fail (in Python, raise
a decode error). The fuel bound is generous: every two recursion steps
consume at least one input character. -/
def loads (s : String) : Option Json :=
  match parseValue (2 * s.length + 2) s.toList with
  | some (v, rest) => if (skipWs rest).isEmpty then some v else none
  | none => none

/-- Four lowercase hexadecimal digits, as used by json.dumps escapes. -/
def hex4 (n : Nat) : String :=
  let d := fun (k : Nat) =>
    if k < 10 then Char.ofNat (48 + k) else Char.ofNat (87 + k)
  String.mk [d (n / 4096 % 16), d (n / 256 % 16), d (n / 16 % 16), d (n % 16)]

/-- One character of a JSON string as encoded by json.dumps with its
default ensure ascii behaviour: quote, backslash and the common control
characters get two-character escapes, other control characters and every
character above tilde get a hexadecimal escape, with a surrogate pair
for characters beyond the basic multilingual plane. -/
def escapeChar (c : Char) : String :=
  if c = '"' then "\\\""
  else if c = '\\' then "\\\\"
  else if c = '\n' then "\\n"
  else if c = '\t' then "\\t"
  else if c = '\r' then "\\r"
  else if c.toNat = 8 then "\\b"
  else if c.toNat = 12 then "\\f"
  else if c.toNat < 0x20 then "\\u" ++ hex4 c.toNat
  else if c.toNat ≤ 0x7e then String.singleton c
  else if c.toNat ≤ 0xffff then "\\u" ++ hex4 c.toNat
  else
    let v := c.toNat - 0x10000
    "\\u" ++ hex4 (0xd800 + v / 0x400) ++ "\\u" ++ hex4 (0xdc00 + v % 0x400)

def encodeString (s : String) : String :=
  "\"" ++ String.join (s.toList.map escapeChar) ++ "\""

def intDec (n : Int) : String :=
  if n < 0 then "-" ++ Nat.repr n.natAbs else Nat.repr n.natAbs

mutual
/-- Model of the Python function json.dumps with its default arguments:
item separator comma space, key separator colon space, ascii output. -/
def dumps : Json → String
  | .null => "null"
  | .bool true => "true"
  | .bool false => "false"
  | .num n => intDec n
  | .str s => encodeString s
  | .arr items => "[" ++ dumpsItems items ++ "]"
  | .obj fields => "\x7b" ++ dumpsFields fields ++ "\x7d"

def dumpsItems : List Json → String
  | [] => ""
  | [x] => dumps x
  | x :: rest => dumps x ++ ", " ++ dumpsItems rest

def dumpsFields : List (String × Json) → String
  | [] => ""
  | [(k, v)] => encodeString k ++ ": " ++ dumps v
  | (k, v) :: rest => encodeString k ++ ": " ++ dumps v ++ ", " ++ dumpsFields rest
end

end json

/-- Python truthiness of a decoded JSON value, as tested by the statement
if not message. Falsy values: None, False, zero, the empty string, the
empty list, the empty dict. -/
def pyTruthy : Json → Bool
  | .null => false
  | .bool b => b
  | .num n => n != 0
  | .str s => s != ""
  | .arr items => !items.isEmpty
  | .obj fields => !fields.isEmpty

/-- Python dict lookup on an association list with distinct keys (as
json.loads produces). -/
def dictGet : List (String × Json) → String → Option Json
  | [], _ => none
  | (k, v) :: rest, key => if k = key then some v else dictGet rest key

/-- The Python type name of a decoded JSON value, as it appears in the
message of the AttributeError raised when the get method is looked up on
a value that is not a dict. -/
def pyTypeName : Json → String
  | .null => "NoneType"
  | .bool _ => "bool"
  | .num _ => "int"
  | .str _ => "str"
  | .arr _ => "list"
  | .obj _ => "dict"

namespace backend

/-- One call to lambda_client.invoke, with the three keyword arguments the
handler passes at src/backend.py lines 18 to 22. -/
structure InvokeCall where
  functionName : String
  invocationType : String
  payload : String

/-- Behaviour of one invocation of the external compute function: either
the call raises (with the given result of applying the Python function
str to the exception), or it returns and the text read from the Payload
stream of the response is the given string. -/
inductive InvokeResult where
  | raises (msg : String)
  | returns (payloadText : String)

/-- The external world the handler depends on: the compute-invocation
service (lambda_client.invoke), plus the text that the Python function
str yields on the decode error json.loads raises when the returned
payload is not decodable (library-produced text, supplied by the
environment since the repository does not define it). -/
structure LambdaEnv where
  invoke : InvokeCall → InvokeResult
  loadsErrText : String → String

/-- Outcome of one call of the view function agent, as Flask delivers it:
a response the handler returned through jsonify (a JSON body with a
status code), or one of the two framework pages produced when an
exception escapes the handler. get_json raising on an undecodable body
yields the Flask default 400 page (HTML, not JSON); any other uncaught
exception yields the Flask 500 page (HTML, not JSON). -/
inductive AgentResult where
  | response (status : Nat) (body : Json)
  | badRequestPage
  | errorPage (exn : String)

/-- True exactly when the outcome carries a JSON body produced by
jsonify; the two framework error pages are HTML. -/
def returnsJsonBody : AgentResult → Bool
  | .response _ _ => true
  | .badRequestPage => false
  | .errorPage _ => false

/-- The view function agent of src/backend.py, lines 11 to 26, applied to
the raw request body. Line by line: data = request.get_json() (an
undecodable body makes get_json raise, giving the 400 page); message =
data.get(key message, default empty string) (on a non-dict value the
attribute lookup raises, and the exception escapes the handler since the
try block has not begun); if not message: return the 400 error response;
then one call of lambda_client.invoke with FunctionName agent_lambda,
InvocationType RequestResponse and Payload json.dumps of the singleton
dict, and json.loads of the returned payload, relayed with status 200;
any exception in the try block is caught and mapped to the 500 error
response carrying the text of the exception. The second component lists
the invocations made, in order. -/
def agent (env : LambdaEnv) (body : String) : AgentResult × List InvokeCall :=
  match json.loads body with
  | none => (.badRequestPage, [])
  | some (.obj fields) =>
    let message := (dictGet fields "message").getD (.str "")
    if pyTruthy message = false then
      (.response 400 (.obj [("error", .str "No message provided")]), [])
    else
      let call : InvokeCall :=
        ⟨"agent_lambda", "RequestResponse", json.dumps (.obj [("message", message)])⟩
      match env.invoke call with
      | .raises msg => (.response 500 (.obj [("error", .str msg)]), [call])
      | .returns text =>
        match json.loads text with
        | some result => (.response 200 result, [call])
        | none => (.response 500 (.obj [("error", .str (env.loadsErrText text))]), [call])
  | some data =>
    (.errorPage ("AttributeError: " ++ pyTypeName data ++ " object has no attribute get"), [])

/-- Model of flask_cors CORS(app) with default parameters (src/backend.py
line 7): every origin is allowed; with the default send wildcard setting
off, the allow-origin header echoes the requesting origin and a Vary
header is added. -/
def corsHeadersFor (origin : String) : List (String × String) :=
  [("Access-Control-Allow-Origin", origin), ("Vary", "Origin")]

/-- A full HTTP response from the app: status code, headers contributed
by the CORS layer, and the handler outcome as the body. -/
structure HttpResponse where
  status : Nat
  headers : List (String × String)
  result : AgentResult

def statusOf : AgentResult → Nat
  | .response s _ => s
  | .badRequestPage => 400
  | .errorPage _ => 500

/-- One request through the app: the view function runs, then the CORS
layer attaches its headers to whatever response goes out, echoing the
Origin header of the request when one is present. -/
def handleAgent (env : LambdaEnv) (origin : Option String) (body : String) :
    HttpResponse × List InvokeCall :=
  let r := agent env body
  let hs := match origin with
    | some o => corsHeadersFor o
    | none => []
  (⟨statusOf r.1, hs, r.1⟩, r.2)

/-- A sample environment whose compute function replies with the fixed
text of the specification example. -/
def sampleEnvOk : LambdaEnv :=
  ⟨fun _ => .returns "\x7b\"reply\": \"hello\"\x7d", fun _ => "Expecting value: line 1 column 1 (char 0)"⟩

/-- A sample environment whose compute function invocation raises. -/
def sampleEnvRaises : LambdaEnv :=
  ⟨fun _ => .raises "lambda timeout", fun _ => "Expecting value: line 1 column 1 (char 0)"⟩

/-- A sample environment whose compute function returns a payload that is
not decodable JSON. -/
def sampleEnvBadPayload : LambdaEnv :=
  ⟨fun _ => .returns "not json at all", fun _ => "Expecting value: line 1 column 1 (char 0)"⟩

end backend

namespace function_app

/-- Log severity of the Python logging module calls used here. -/
inductive LogLevel where
  | info
  | warning
  | error
  deriving DecidableEq

/-- One emitted log record: severity and formatted message. -/
structure LogRecord where
  level : LogLevel
  message : String

/-- The event object delivered to the handler. The field labelled
get_json holds the outcome of calling the get_json method of the Azure
EventGridEvent class (library code): the decoded data payload, or the
exception it raises (as the text the Python function str yields on it)
when the data is not decodable. -/
structure EventGridEvent where
  get_json : Except String Json
  subject : String
  event_type : String

/-- The handler main of src/function_app.py, lines 9 to 13. Line by line:
data = event.get_json() (a raised exception propagates, the handler has
no try block); then three logging.info calls whose f-strings prepend the
fixed labels to json.dumps(data), event.subject and event.event_type.
The Python function returns None on success; the model returns the list
of emitted log records, or the propagated exception text. -/
def main (event : EventGridEvent) : Except String (List LogRecord) :=
  match event.get_json with
  | .error e => .error e
  | .ok data =>
    .ok [⟨.info, "Event received: " ++ json.dumps data⟩,
         ⟨.info, "Subject: " ++ event.subject⟩,
         ⟨.info, "Event Type: " ++ event.event_type⟩]

/-- A sample delivered event with a well-formed payload. -/
def sampleEvent : EventGridEvent :=
  ⟨.ok (.obj [("url", .str "https://example.test/blob")]),
   "/blobServices/default/containers/c/blobs/b",
   "Microsoft.Storage.BlobCreated"⟩

/-- A sample delivered event whose payload extraction raises. -/
def sampleBadEvent : EventGridEvent :=
  ⟨.error "Expecting value: line 1 column 1 (char 0)",
   "/blobServices/default/containers/c/blobs/b",
   "Microsoft.Storage.BlobCreated"⟩

end function_app

/-! ## Theorems -/

namespace backend

/-- C1: For every POST to /api/agent whose JSON body is an object with the
message field absent or equal to the empty string, the handler returns
status 400 with body having the single field error mapped to the text
No message provided, and makes zero invocations of the external compute
function. -/
theorem agent_missing_or_empty_message_400 (env : LambdaEnv) (body : String)
    (fields : List (String × Json))
    (hbody : json.loads body = some (.obj fields))
    (hmsg : dictGet fields "message" = none ∨ dictGet fields "message" = some (.str "")) :
    agent env body = (.response 400 (.obj [("error", .str "No message provided")]), []) := by
  unfold agent
  rw [hbody]
  rcases hmsg with h | h <;> simp [h, pyTruthy]

theorem agent_missing_or_empty_message_400_witness :
    agent sampleEnvOk "\x7b\x7d" =
      (.response 400 (.obj [("error", .str "No message provided")]), []) :=
  agent_missing_or_empty_message_400 sampleEnvOk "\x7b\x7d" [] (by rfl) (Or.inl (by rfl))

end backend


namespace backend

/-- C2: For every POST to /api/agent whose JSON body is an object with the
message field present and equal to a nonempty string, the handler attempts
exactly one invocation of the external compute function — whatever that
invocation then does — passing the JSON-encoded text of the singleton
object mapping message to that string as its sole payload, with function
name agent_lambda and request/response invocation type. -/
theorem agent_valid_message_invokes_once (env : LambdaEnv) (body : String)
    (fields : List (String × Json)) (s : String)
    (hbody : json.loads body = some (.obj fields))
    (hmsg : dictGet fields "message" = some (.str s))
    (hne : s ≠ "") :
    (agent env body).2 =
      [⟨"agent_lambda", "RequestResponse", json.dumps (.obj [("message", .str s)])⟩] := by
  unfold agent
  rw [hbody]
  have ht : pyTruthy (Json.str s) = true := by simp [pyTruthy, hne]
  simp only [hmsg, Option.getD_some, ht]
  rw [if_neg (by simp)]
  cases env.invoke ⟨"agent_lambda", "RequestResponse", json.dumps (.obj [("message", .str s)])⟩ with
  | raises msg => rfl
  | returns text =>
    dsimp only
    cases json.loads text with
    | none => rfl
    | some v => rfl

theorem agent_valid_message_invokes_once_witness :
    (agent sampleEnvRaises "\x7b\"message\": \"hi\"\x7d").2 =
      [⟨"agent_lambda", "RequestResponse", json.dumps (.obj [("message", .str "hi")])⟩] :=
  agent_valid_message_invokes_once sampleEnvRaises "\x7b\"message\": \"hi\"\x7d"
    [("message", .str "hi")] "hi" (by rfl) (by rfl) (by decide)

/-- C3: For every value that the external compute function returns as
text-encoded JSON (any payload text whose decoding succeeds), the handler
returns status 200 with that decoded value as the response body, passed
through with no transformation; in particular, on the payload text of the
object mapping reply to hello, the response body is that object. -/
theorem agent_relays_decoded_result (env : LambdaEnv) (body : String)
    (fields : List (String × Json)) (s t : String) (v : Json)
    (hbody : json.loads body = some (.obj fields))
    (hmsg : dictGet fields "message" = some (.str s))
    (hne : s ≠ "")
    (hinv : env.invoke ⟨"agent_lambda", "RequestResponse",
        json.dumps (.obj [("message", .str s)])⟩ = .returns t)
    (hdec : json.loads t = some v) :
    (agent env body).1 = .response 200 v := by
  unfold agent
  rw [hbody]
  have ht : pyTruthy (Json.str s) = true := by simp [pyTruthy, hne]
  simp only [hmsg, Option.getD_some, ht]
  rw [if_neg (by simp), hinv]
  dsimp only
  rw [hdec]

theorem agent_relays_decoded_result_witness :
    (agent sampleEnvOk "\x7b\"message\": \"hi\"\x7d").1 =
      .response 200 (.obj [("reply", .str "hello")]) :=
  agent_relays_decoded_result sampleEnvOk "\x7b\"message\": \"hi\"\x7d"
    [("message", .str "hi")] "hi" "\x7b\"reply\": \"hello\"\x7d"
    (.obj [("reply", .str "hello")]) (by rfl) (by rfl) (by decide) (by rfl) (by rfl)

/-- C4: On the valid-message path, if the invocation of the external
compute function raises (with any exception text), or if it returns a
payload whose decoding fails, the handler returns status 500 with body
having the single field error mapped to the text of the exception —
every category of failure inside the try block collapses into this single
response shape, with the one invocation still on the trace. -/
theorem agent_invoke_or_decode_failure_500 (env : LambdaEnv) (body : String)
    (fields : List (String × Json)) (s m t : String)
    (hbody : json.loads body = some (.obj fields))
    (hmsg : dictGet fields "message" = some (.str s))
    (hne : s ≠ "") :
    (env.invoke ⟨"agent_lambda", "RequestResponse",
        json.dumps (.obj [("message", .str s)])⟩ = .raises m →
      agent env body = (.response 500 (.obj [("error", .str m)]),
        [⟨"agent_lambda", "RequestResponse", json.dumps (.obj [("message", .str s)])⟩])) ∧
    (env.invoke ⟨"agent_lambda", "RequestResponse",
        json.dumps (.obj [("message", .str s)])⟩ = .returns t →
      json.loads t = none →
      agent env body = (.response 500 (.obj [("error", .str (env.loadsErrText t))]),
        [⟨"agent_lambda", "RequestResponse", json.dumps (.obj [("message", .str s)])⟩])) := by
  have ht : pyTruthy (Json.str s) = true := by simp [pyTruthy, hne]
  constructor
  · intro hinv
    unfold agent
    rw [hbody]
    simp only [hmsg, Option.getD_some, ht]
    rw [if_neg (by simp), hinv]
  · intro hinv hdec
    unfold agent
    rw [hbody]
    simp only [hmsg, Option.getD_some, ht]
    rw [if_neg (by simp), hinv]
    dsimp only
    rw [hdec]

theorem agent_invoke_or_decode_failure_500_witness :
    agent sampleEnvRaises "\x7b\"message\": \"hi\"\x7d" =
      (.response 500 (.obj [("error", .str "lambda timeout")]),
       [⟨"agent_lambda", "RequestResponse", "\x7b\"message\": \"hi\"\x7d"⟩]) ∧
    agent sampleEnvBadPayload "\x7b\"message\": \"hi\"\x7d" =
      (.response 500 (.obj [("error", .str "Expecting value: line 1 column 1 (char 0)")]),
       [⟨"agent_lambda", "RequestResponse", "\x7b\"message\": \"hi\"\x7d"⟩]) :=
  ⟨(agent_invoke_or_decode_failure_500 sampleEnvRaises "\x7b\"message\": \"hi\"\x7d"
      [("message", .str "hi")] "hi" "lambda timeout" "" (by rfl) (by rfl) (by decide)).1 (by rfl),
   (agent_invoke_or_decode_failure_500 sampleEnvBadPayload "\x7b\"message\": \"hi\"\x7d"
      [("message", .str "hi")] "hi" "" "not json at all" (by rfl) (by rfl) (by decide)).2
     (by rfl) (by rfl)⟩

/-- C9: For every POST to /api/agent whose JSON body is an object mapping
message to any falsy value (such as the number zero, false, null, an
empty list, or an empty object), the handler returns the same 400
response with the error text No message provided and makes no downstream
call, because the validation tests Python truthiness of the field. -/
theorem agent_falsy_nonstring_message_400 (env : LambdaEnv) (body : String)
    (fields : List (String × Json)) (m : Json)
    (hbody : json.loads body = some (.obj fields))
    (hmsg : dictGet fields "message" = some m)
    (hfalsy : pyTruthy m = false) :
    agent env body = (.response 400 (.obj [("error", .str "No message provided")]), []) := by
  unfold agent
  rw [hbody]
  simp only [hmsg, Option.getD_some, hfalsy]
  rw [if_pos trivial]

theorem agent_falsy_nonstring_message_400_witness :
    agent sampleEnvOk "\x7b\"message\": 0\x7d" =
      (.response 400 (.obj [("error", .str "No message provided")]), []) :=
  agent_falsy_nonstring_message_400 sampleEnvOk "\x7b\"message\": 0\x7d"
    [("message", .num 0)] (.num 0) (by rfl) (by rfl) (by rfl)

/-- C10: For every POST to /api/agent whose JSON body is an object mapping
message to any truthy value of any type (a nonzero number, a nonempty
list, a nonempty object, and so on), validation passes and the value is
forwarded verbatim inside the invocation payload, the singleton object
mapping message to it; no check that the value is text is performed. -/
theorem agent_truthy_message_forwarded_verbatim (env : LambdaEnv) (body : String)
    (fields : List (String × Json)) (m : Json)
    (hbody : json.loads body = some (.obj fields))
    (hmsg : dictGet fields "message" = some m)
    (htruthy : pyTruthy m = true) :
    (agent env body).2 =
      [⟨"agent_lambda", "RequestResponse", json.dumps (.obj [("message", m)])⟩] := by
  unfold agent
  rw [hbody]
  simp only [hmsg, Option.getD_some, htruthy]
  rw [if_neg (by simp)]
  cases env.invoke ⟨"agent_lambda", "RequestResponse", json.dumps (.obj [("message", m)])⟩ with
  | raises msg => rfl
  | returns text =>
    dsimp only
    cases json.loads text with
    | none => rfl
    | some v => rfl

theorem agent_truthy_message_forwarded_verbatim_witness :
    (agent sampleEnvOk "\x7b\"message\": [1]\x7d").2 =
      [⟨"agent_lambda", "RequestResponse", "\x7b\"message\": [1]\x7d"⟩] :=
  agent_truthy_message_forwarded_verbatim sampleEnvOk "\x7b\"message\": [1]\x7d"
    [("message", .arr [.num 1])] (.arr [.num 1]) (by rfl) (by rfl) (by rfl)

/-- C7 counterexample: on a request body that is not decodable JSON, the
caller does not receive a JSON object: request.get_json() raises and the
outcome is the Flask default 400 page, which carries no JSON body. -/
theorem agent_undecodable_body_html_page :
    (agent sampleEnvOk "not json").1 = .badRequestPage ∧
    returnsJsonBody (agent sampleEnvOk "not json").1 = false :=
  ⟨rfl, rfl⟩

/-- C7 amended: for every POST to /api/agent whose body decodes to a JSON
object, the caller receives a JSON response body — either the relayed
decoded result of the external function (status 200) or an object with
an error field; when the body is not decodable JSON or not a JSON
object, a framework HTML error page is returned instead. -/
theorem agent_object_body_always_json_response (env : LambdaEnv) (body : String)
    (fields : List (String × Json))
    (hbody : json.loads body = some (.obj fields)) :
    ∃ st v, (agent env body).1 = .response st v ∧
      ((∃ m, v = Json.obj [("error", Json.str m)]) ∨
       (st = 200 ∧ ∃ c t, env.invoke c = .returns t ∧ json.loads t = some v)) := by
  unfold agent
  rw [hbody]
  dsimp only
  by_cases h : pyTruthy ((dictGet fields "message").getD (.str "")) = false
  · rw [if_pos h]
    exact ⟨400, _, rfl, Or.inl ⟨"No message provided", rfl⟩⟩
  · rw [if_neg h]
    cases hinv : env.invoke ⟨"agent_lambda", "RequestResponse",
        json.dumps (.obj [("message", (dictGet fields "message").getD (.str ""))])⟩ with
    | raises msg => exact ⟨500, _, rfl, Or.inl ⟨msg, rfl⟩⟩
    | returns text =>
      dsimp only
      cases hdec : json.loads text with
      | none => exact ⟨500, _, rfl, Or.inl ⟨env.loadsErrText text, rfl⟩⟩
      | some v => exact ⟨200, v, rfl, Or.inr ⟨rfl, ⟨_, text, hinv, hdec⟩⟩⟩

theorem agent_object_body_always_json_response_witness :
    ∃ st v, (agent sampleEnvOk "\x7b\x7d").1 = .response st v ∧
      ((∃ m, v = Json.obj [("error", Json.str m)]) ∨
       (st = 200 ∧ ∃ c t, sampleEnvOk.invoke c = .returns t ∧ json.loads t = some v)) :=
  agent_object_body_always_json_response sampleEnvOk "\x7b\x7d" [] (by rfl)

/-- C8: Every cross-origin request to /api/agent, whatever the value of
its Origin header and whatever the handler outcome, receives a CORS
header permitting that origin: the unrestricted default policy allows
every origin, echoing it in the allow-origin response header. -/
theorem handleAgent_allows_every_origin (env : LambdaEnv) (origin body : String) :
    ("Access-Control-Allow-Origin", origin) ∈
      (handleAgent env (some origin) body).1.headers := by
  unfold handleAgent
  simp [corsHeadersFor]

end backend

namespace function_app

/-- C5: For every delivered event whose data payload extraction succeeds,
the Event Logger emits exactly three informational log records — in
order: the serialized data payload, the subject, and the event type,
each behind its fixed label — and returns normally without raising (and,
in Python, with no return value). -/
theorem main_logs_three_info_records (event : EventGridEvent) (data : Json)
    (h : event.get_json = .ok data) :
    main event = .ok
      [⟨.info, "Event received: " ++ json.dumps data⟩,
       ⟨.info, "Subject: " ++ event.subject⟩,
       ⟨.info, "Event Type: " ++ event.event_type⟩] := by
  unfold main
  rw [h]

theorem main_logs_three_info_records_witness :
    main sampleEvent = .ok
      [⟨.info, "Event received: \x7b\"url\": \"https://example.test/blob\"\x7d"⟩,
       ⟨.info, "Subject: /blobServices/default/containers/c/blobs/b"⟩,
       ⟨.info, "Event Type: Microsoft.Storage.BlobCreated"⟩] :=
  main_logs_three_info_records sampleEvent
    (.obj [("url", .str "https://example.test/blob")]) (by rfl)

/-- C6: The Event Logger has no failure-handling path of its own: for
every event whose payload extraction raises, that exception propagates
to the hosting runtime uncaught, exactly as raised by the underlying
extraction, and no log record is emitted. -/
theorem main_propagates_extraction_error (event : EventGridEvent) (e : String)
    (h : event.get_json = .error e) :
    main event = .error e := by
  unfold main
  rw [h]

theorem main_propagates_extraction_error_witness :
    main sampleBadEvent = .error "Expecting value: line 1 column 1 (char 0)" :=
  main_propagates_extraction_error sampleBadEvent
    "Expecting value: line 1 column 1 (char 0)" (by rfl)

end function_app
